import Mathlib

/-!
Verification development for the Therapy-Insight-Engine pipeline
(ingestion → audio extraction → transcription → analysis).

The Python services are shallowly embedded: each message handler becomes a
pure Lean function from an explicit environment (vendor responses, injected
infrastructure faults) and an explicit world state (Redis cache contents,
Postgres tables, published events) to a terminal outcome plus the new world.
Machine words are `Nat` reduced mod 2^32 where the source uses 32-bit
arithmetic (SHA-256).
-/

namespace TherapyInsight

/-! ## SHA-256 (`hashlib.sha256(text.encode()).hexdigest()`)

The analysis stage fingerprints a transcript with SHA-256 of its UTF-8
encoding and uses the lowercase hex digest in the cache key
(src/services/analyzer/main.py, line 141). We embed the full FIPS 180-4
algorithm over `Nat` with explicit reduction mod 2^32. -/

/-- Reduce to a 32-bit word. -/
def w32 (n : Nat) : Nat := n % 4294967296

/-- Rotate a 32-bit word right by `n` bits. -/
def rotr (n x : Nat) : Nat := w32 ((x >>> n) ||| (x <<< (32 - n)))

/-- UTF-8 encoding of one code point, as in Python `str.encode()`. -/
def utf8Char (n : Nat) : List Nat :=
  if n < 128 then [n]
  else if n < 2048 then [192 + n / 64, 128 + n % 64]
  else if n < 65536 then [224 + n / 4096, 128 + (n / 64) % 64, 128 + n % 64]
  else [240 + n / 262144, 128 + (n / 4096) % 64, 128 + (n / 64) % 64, 128 + n % 64]

/-- UTF-8 encoding of a string as a byte list (Python `text.encode()`). -/
def utf8Encode (s : String) : List Nat :=
  (s.data.map (fun c => utf8Char c.toNat)).flatten

/-- `k` bytes of `n`, big-endian. -/
def beBytes (k n : Nat) : List Nat :=
  (List.range k).map (fun i => (n >>> (8 * (k - 1 - i))) % 256)

/-- SHA-256 padding: append 0x80, zero bytes to 56 mod 64, then the
64-bit big-endian bit length. -/
def sha256pad (msg : List Nat) : List Nat :=
  let L := msg.length
  let zeros := (64 + 56 - ((L + 1) % 64)) % 64
  msg ++ [128] ++ List.replicate zeros 0 ++ beBytes 8 (8 * L)

/-- Split a byte list into 64-byte blocks (fuel-driven structural recursion). -/
def toBlocksAux : Nat → List Nat → List (List Nat)
  | 0, _ => []
  | _ + 1, [] => []
  | fuel + 1, l => l.take 64 :: toBlocksAux fuel (l.drop 64)

/-- Split a byte list into 64-byte blocks. -/
def toBlocks (l : List Nat) : List (List Nat) := toBlocksAux l.length l

/-- Pack bytes into 32-bit big-endian words. -/
def toWords : List Nat → List Nat
  | b0 :: b1 :: b2 :: b3 :: rest => (((b0 * 256 + b1) * 256 + b2) * 256 + b3) :: toWords rest
  | _ => []

/-- σ0 message-schedule function. -/
def smallSig0 (x : Nat) : Nat := (rotr 7 x) ^^^ (rotr 18 x) ^^^ (x >>> 3)

/-- σ1 message-schedule function. -/
def smallSig1 (x : Nat) : Nat := (rotr 17 x) ^^^ (rotr 19 x) ^^^ (x >>> 10)

/-- Σ0 compression function. -/
def bigSig0 (x : Nat) : Nat := (rotr 2 x) ^^^ (rotr 13 x) ^^^ (rotr 22 x)

/-- Σ1 compression function. -/
def bigSig1 (x : Nat) : Nat := (rotr 6 x) ^^^ (rotr 11 x) ^^^ (rotr 25 x)

/-- Ch(x, y, z). -/
def chFn (x y z : Nat) : Nat := (x &&& y) ^^^ ((x ^^^ 4294967295) &&& z)

/-- Maj(x, y, z). -/
def majFn (x y z : Nat) : Nat := (x &&& y) ^^^ (x &&& z) ^^^ (y &&& z)

/-- The 64 SHA-256 round constants, in decimal. -/
def shaK : List Nat :=
  [1116352408, 1899447441, 3049323471, 3921009573,
   961987163, 1508970993, 2453635748, 2870763221,
   3624381080, 310598401, 607225278, 1426881987,
   1925078388, 2162078206, 2614888103, 3248222580,
   3835390401, 4022224774, 264347078, 604807628,
   770255983, 1249150122, 1555081692, 1996064986,
   2554220882, 2821834349, 2952996808, 3210313671,
   3336571891, 3584528711, 113926993, 338241895,
   666307205, 773529912, 1294757372, 1396182291,
   1695183700, 1986661051, 2177026350, 2456956037,
   2730485921, 2820302411, 3259730800, 3345764771,
   3516065817, 3600352804, 4094571909, 275423344,
   430227734, 506948616, 659060556, 883997877,
   958139571, 1322822218, 1537002063, 1747873779,
   1955562222, 2024104815, 2227730452, 2361852424,
   2428436474, 2756734187, 3204031479, 3329325298]

/-- Extend 16 message words to the 64-word schedule. -/
def msgSchedule (w16 : List Nat) : Array Nat :=
  (List.range 48).foldl
    (fun w _ =>
      let i := w.size
      w.push (w32 (smallSig1 (w.getD (i - 2) 0) + w.getD (i - 7) 0 +
                   smallSig0 (w.getD (i - 15) 0) + w.getD (i - 16) 0)))
    w16.toArray

/-- The eight 32-bit working variables of SHA-256. -/
structure Hs where
  a : Nat
  b : Nat
  c : Nat
  d : Nat
  e : Nat
  f : Nat
  g : Nat
  h : Nat
deriving Repr, DecidableEq

/-- Initial SHA-256 hash value, in decimal. -/
def shaH0 : Hs :=
  ⟨1779033703, 3144134277, 1013904242, 2773480762,
   1359893119, 2600822924, 528734635, 1541459225⟩

/-- One SHA-256 compression round. -/
def shaRound (wi ki : Nat) (s : Hs) : Hs :=
  let t1 := w32 (s.h + bigSig1 s.e + chFn s.e s.f s.g + ki + wi)
  let t2 := w32 (bigSig0 s.a + majFn s.a s.b s.c)
  ⟨w32 (t1 + t2), s.a, s.b, s.c, w32 (s.d + t1), s.e, s.f, s.g⟩

/-- Process one 64-byte block. -/
def processBlock (h0 : Hs) (block : List Nat) : Hs :=
  let ws := msgSchedule (toWords block)
  let s := (List.range 64).foldl (fun s i => shaRound (ws.getD i 0) (shaK.getD i 0) s) h0
  ⟨w32 (h0.a + s.a), w32 (h0.b + s.b), w32 (h0.c + s.c), w32 (h0.d + s.d),
   w32 (h0.e + s.e), w32 (h0.f + s.f), w32 (h0.g + s.g), w32 (h0.h + s.h)⟩

/-- One lowercase hexadecimal digit. -/
def hexChar (n : Nat) : Char :=
  if n < 10 then Char.ofNat (48 + n) else Char.ofNat (87 + n)

/-- Lowercase hex of a 32-bit word, 8 digits. -/
def hexWord (n : Nat) : String :=
  String.mk ((List.range 8).map (fun i => hexChar ((n >>> (4 * (7 - i))) % 16)))

/-- `hashlib.sha256(s.encode()).hexdigest()`. -/
def sha256hex (s : String) : String :=
  let hF := (toBlocks (sha256pad (utf8Encode s))).foldl processBlock shaH0
  hexWord hF.a ++ hexWord hF.b ++ hexWord hF.c ++ hexWord hF.d ++
  hexWord hF.e ++ hexWord hF.f ++ hexWord hF.g ++ hexWord hF.h

/-! ## Event models (src/common/events.py)

The shared pydantic event contracts. Identifiers that are UUIDs in the
source are modeled as strings (every handler immediately applies `str`
to them); pydantic datetimes are modeled as `Nat` (wall-clock values play
no role in any claim); opaque JSON payloads are modeled as strings. -/

/-- Event emitted when audio has been extracted from a video
(class `AudioExtracted`, events.py lines 26 to 34). -/
structure AudioExtracted where
  video_id : String
  audio_path : String
  duration_seconds : Option Nat
  timestamp : Nat
deriving Repr, DecidableEq

/-- Event emitted when transcription is complete (class `TranscriptReady`,
events.py lines 37 to 45). Its declared pydantic fields are exactly
`video_id`, `transcript_json`, `speaker_segments` and `timestamp`;
the model declares no `transcript_text` field. -/
structure TranscriptReady where
  video_id : String
  transcript_json : String
  speaker_segments : Option String
  timestamp : Nat
deriving Repr, DecidableEq

/-- The declared field names of the `TranscriptReady` pydantic model,
in declaration order (events.py lines 42 to 45). -/
def TranscriptReady.fieldNames : List String :=
  ["video_id", "transcript_json", "speaker_segments", "timestamp"]

/-- The keyword arguments the transcription stage passes when it constructs
its output `TranscriptReady(...)` (src/services/transcription/main.py
lines 83 to 87). Pydantic silently drops any keyword that is not a declared
field (default `extra` policy is `ignore`). -/
def transcriptReadyCtorKwargs : List String :=
  ["video_id", "transcript_text", "transcript_json"]

/-- The attributes of the incoming event that the analyzer handler reads
(src/services/analyzer/main.py: `event.transcript_text` on lines 136, 141
and 168, `event.video_id` throughout `handle_transcript`). -/
def handleTranscriptEventReads : List String :=
  ["video_id", "transcript_text"]

/-- Event emitted on upload (class `VideoUploaded`, events.py lines 15
to 23). -/
structure VideoUploaded where
  video_id : String
  filename : String
  minio_path : String
  timestamp : Nat
deriving Repr, DecidableEq

/-! ## Analyzer output models (src/services/analyzer/main.py lines 47 to 77) -/

/-- One cognitive distortion found in the patient speech. -/
structure CognitiveDistortion where
  quote : String
  distortion_type : String
  explanation : String
deriving Repr, DecidableEq

/-- One therapist intervention. -/
structure TherapistIntervention where
  quote : String
  technique : String
  purpose : String
deriving Repr, DecidableEq

/-- One analyzed transcript segment (class `AnalysisResult`). The source
type of `confidence` is a float that is only carried through, never
computed with; it is modeled as a rational. -/
structure AnalysisResult where
  text : String
  speaker_role : String
  topic : String
  emotion : String
  confidence : Rat
deriving Repr, DecidableEq

/-- The full structured analysis (class `FullAnalysis`); `video_id` defaults
to the empty string and is filled in after generation. -/
structure FullAnalysis where
  video_id : String := ""
  segments : List AnalysisResult
  summary : String
  recommendations : List String := []
  cognitive_distortions : List CognitiveDistortion := []
  therapist_interventions : List TherapistIntervention := []
deriving Repr, DecidableEq

/-! ## Postgres sink (`save_to_postgres`, analyzer main.py lines 101 to 130)

Two tables. `analysis_summary` is written with
`INSERT ... ON CONFLICT (video_id) DO UPDATE`, so it holds at most one row
per `video_id`; `analysis_segments` is written with a plain `INSERT` per
segment, with no conflict key and no delete. The JSON-serialized columns
(recommendations, distortions, interventions) are stored structurally:
`json.dumps` of equal values is equal, so equality and duplication
behavior are preserved. -/

/-- One row of `analysis_summary`. -/
structure SummaryRow where
  video_id : String
  summary_text : String
  recommendations : List String
  cognitive_distortions : List CognitiveDistortion
  therapist_interventions : List TherapistIntervention
deriving Repr, DecidableEq

/-- One row of `analysis_segments`. -/
structure SegmentRow where
  video_id : String
  speaker_role : String
  text_content : String
  topic : String
  emotion : String
  confidence_score : Rat
deriving Repr, DecidableEq

/-- The persisted state the analyzer writes to. -/
structure PgState where
  analysis_summary : List SummaryRow
  analysis_segments : List SegmentRow
deriving Repr, DecidableEq

/-- The summary row derived from a `FullAnalysis` (the VALUES of the first
INSERT, lines 111 to 119). -/
def summaryRowOf (a : FullAnalysis) : SummaryRow :=
  { video_id := a.video_id
    summary_text := a.summary
    recommendations := a.recommendations
    cognitive_distortions := a.cognitive_distortions
    therapist_interventions := a.therapist_interventions }

/-- The segment rows derived from a `FullAnalysis` (the VALUES of the
per-segment INSERT, lines 123 to 127). -/
def segmentRowsOf (a : FullAnalysis) : List SegmentRow :=
  a.segments.map (fun seg =>
    { video_id := a.video_id
      speaker_role := seg.speaker_role
      text_content := seg.text
      topic := seg.topic
      emotion := seg.emotion
      confidence_score := seg.confidence })

/-- `INSERT ... ON CONFLICT (video_id) DO UPDATE`: update the non-key
columns of the row holding the conflicting key (`video_id` is the unique
key, so at most one row can conflict), or append a fresh row. -/
def upsertSummary : List SummaryRow → SummaryRow → List SummaryRow
  | [], row => [row]
  | r :: rest, row =>
      if r.video_id == row.video_id then
        { r with summary_text := row.summary_text
                 recommendations := row.recommendations
                 cognitive_distortions := row.cognitive_distortions
                 therapist_interventions := row.therapist_interventions } :: rest
      else r :: upsertSummary rest row

/-- `save_to_postgres(analysis)`: upsert the summary row, then plain-INSERT
one `analysis_segments` row per segment. -/
def save_to_postgres (db : PgState) (analysis : FullAnalysis) : PgState :=
  { analysis_summary := upsertSummary db.analysis_summary (summaryRowOf analysis)
    analysis_segments := db.analysis_segments ++ segmentRowsOf analysis }

/-! ## Redis fingerprint cache (analyzer main.py lines 43, 139 to 156, 208)

The cache maps the content-based key
`"analysis:" + sha256(transcript_text.encode()).hexdigest()` to the
serialized `FullAnalysis`. Serialization round-trips
(`model_dump_json` / `model_validate_json` of a value produced by the
service), so entries are stored structurally; a failing deserialization of
a genuinely corrupt entry is injected through the fault environment below.
The 24-hour TTL passed to `redis.set` is not modeled: no claim involves
wall-clock time. -/

/-- The content-based cache key (lines 141 to 142). -/
def cacheKeyOf (transcript_text : String) : String :=
  "analysis:" ++ sha256hex transcript_text

/-- `redis.get`: the value stored under a key, if any. -/
def lookupCache : List (String × FullAnalysis) → String → Option FullAnalysis
  | [], _ => none
  | p :: rest, k => if p.1 == k then some p.2 else lookupCache rest k

/-- `redis.set`: replace the entry under a key, or create it. -/
def setCache : List (String × FullAnalysis) → String → FullAnalysis →
    List (String × FullAnalysis)
  | [], k, v => [(k, v)]
  | p :: rest, k, v => if p.1 == k then (k, v) :: rest else p :: setCache rest k v

/-! ## The analyzer stage (`handle_transcript`, analyzer main.py lines 132 to 214)

The handler is embedded as a pure function. The incoming message is
modeled by the two attributes the handler actually reads
(`event.video_id`, already stringified, and `event.transcript_text`);
the mismatch between these reads and the declared `TranscriptReady`
model is settled separately through `TranscriptReady.fieldNames`.
External effects that can raise (`redis.get`, `model_validate_json`,
`save_to_postgres`, `generate_content`, `redis.set`) are given their
failure behavior through an explicit fault environment: a `true` flag
means the corresponding await raises during this invocation. The
deterministic successful LLM response, parsed, is an explicit function
from the transcript text. -/

/-- The event attributes `handle_transcript` reads. -/
structure AnalyzerEvent where
  video_id : String
  transcript_text : String
deriving Repr, DecidableEq

/-- Fault environment for one invocation of `handle_transcript`. -/
structure Faults where
  lookupFails : Bool
  hitParseFails : Bool
  hitSaveFails : Bool
  llmFails : Bool
  llmParseFails : Bool
  saveFails : Bool
  storeFails : Bool
deriving Repr, DecidableEq

/-- No infrastructure or vendor failures. -/
def noFaults : Faults :=
  { lookupFails := false, hitParseFails := false, hitSaveFails := false
    llmFails := false, llmParseFails := false, saveFails := false
    storeFails := false }

/-- The shared mutable world an analyzer invocation touches: the Redis
cache, the Postgres tables, and the number of `generate_content` calls
issued so far (the LLM invocation counter used to state the
short-circuit properties). -/
structure World where
  cache : List (String × FullAnalysis)
  db : PgState
  llmCalls : Nat
deriving Repr, DecidableEq

/-- Terminal outcome of one handler invocation. Returning normally lets
the broker acknowledge the message; `msg.reject(requeue=False)` removes
it without redelivery; an uncaught exception propagates out of the
handler. -/
inductive Outcome where
  | ack
  | rejectNoRequeue
  | raised
deriving Repr, DecidableEq

/-- The validation check of line 136:
`if not event.transcript_text or not event.transcript_text.strip()`.
A string strips to empty exactly when every character is whitespace, so
the check is the empty string or an all-whitespace string. -/
def isBlankTranscript (t : String) : Bool :=
  t.data.isEmpty || t.data.all (fun c => c.isWhitespace)

/-- The compute path of `handle_transcript` (lines 158 to 214): call the
LLM, parse its response, inject the event id, persist, then cache; any
exception in this `try` is caught and answered with
`msg.reject(requeue=False)`. The call counter is incremented as soon as
the vendor call is issued, whether or not it raises. -/
def computePath (llm : String → FullAnalysis) (f : Faults) (w : World)
    (ev : AnalyzerEvent) (key : String) : Outcome × World :=
  let w1 := { w with llmCalls := w.llmCalls + 1 }
  if f.llmFails then (.rejectNoRequeue, w1)
  else if f.llmParseFails then (.rejectNoRequeue, w1)
  else
    let result := { llm ev.transcript_text with video_id := ev.video_id }
    if f.saveFails then (.rejectNoRequeue, w1)
    else
      let w2 := { w1 with db := save_to_postgres w1.db result }
      if f.storeFails then (.rejectNoRequeue, w2)
      else (.ack, { w2 with cache := setCache w2.cache key result })

/-- `handle_transcript` (lines 132 to 214). Blank transcripts return
immediately (the broker acknowledges). The `redis.get` on line 144 is
outside every `try` block, so its failure propagates. A cache hit enters
the `try` of lines 147 to 153: parse the cached JSON, overwrite its
`video_id` with the id of the current event, persist; if any of that
raises, the handler logs and falls through to the compute path. -/
def handle_transcript (llm : String → FullAnalysis) (f : Faults) (w : World)
    (ev : AnalyzerEvent) : Outcome × World :=
  if isBlankTranscript ev.transcript_text then (.ack, w)
  else
    let key := cacheKeyOf ev.transcript_text
    if f.lookupFails then (.raised, w)
    else
      match lookupCache w.cache key with
      | some cached =>
          if f.hitParseFails then computePath llm f w ev key
          else
            let result := { cached with video_id := ev.video_id }
            if f.hitSaveFails then computePath llm f w ev key
            else (.ack, { w with db := save_to_postgres w.db result })
      | none => computePath llm f w ev key

/-! ## The transcription stage (`handle_audio_extracted`,
src/services/transcription/main.py lines 59 to 102)

Download the audio from MinIO, run the AssemblyAI vendor call, publish a
`TranscriptReady` to the `transcript_ready` queue; any exception is
caught and answered with `msg.reject(requeue=False)`. The stage persists
nothing. The published event is the pydantic construction of lines 83 to
87: of the keywords passed, `transcript_text` is not a declared field of
`TranscriptReady` and is dropped. -/

/-- The AssemblyAI transcript object as consumed: its `text` and its raw
`json_response` payload. -/
structure TransResult where
  text : String
  json_response : String
deriving Repr, DecidableEq

/-- Fault environment for one transcription invocation. -/
structure TransFaults where
  fetchFails : Bool
  vendorFails : Bool
deriving Repr, DecidableEq

/-- The world a transcription invocation touches: the `transcript_ready`
queue it publishes to. -/
structure TransWorld where
  published : List TranscriptReady
deriving Repr, DecidableEq

/-- `handle_audio_extracted`: fetch, transcribe, publish; every failure is
caught by the single `except` and terminally rejected. -/
def handle_audio_extracted (vendor : String → TransResult) (f : TransFaults)
    (w : TransWorld) (ev : AudioExtracted) : Outcome × TransWorld :=
  if f.fetchFails then (.rejectNoRequeue, w)
  else if f.vendorFails then (.rejectNoRequeue, w)
  else
    let t := vendor ev.audio_path
    let outputEvent : TranscriptReady :=
      { video_id := ev.video_id, transcript_json := t.json_response
        speaker_segments := none, timestamp := 0 }
    (.ack, { w with published := w.published ++ [outputEvent] })

/-! ## The extraction stage (`handle_video_uploaded`,
src/services/audio_extractor/main.py lines 56 to 109)

Download the video from MinIO, run ffmpeg, upload the extracted audio to
object storage, then publish an `AudioExtracted` event; any exception is
caught by the single `except` and terminally rejected. To settle ordering
claims, the invocation also returns its trace: the list of external
effects that completed, in program order. -/

/-- External effects of an extraction invocation, in the order they
complete. -/
inductive ExtAction where
  | fetchVideo (bucket objectName : String)
  | runFfmpeg
  | putAudio (bucket objectName : String)
  | publishAudioExtracted (queue videoId audioPath : String)
deriving Repr, DecidableEq

/-- Fault environment for one extraction invocation. -/
structure ExtFaults where
  fetchFails : Bool
  ffmpegFails : Bool
  putFails : Bool
  publishFails : Bool
deriving Repr, DecidableEq

/-- `handle_video_uploaded`: fetch, transcode, store the audio durably,
publish downstream; each step runs only after the previous completed, and
any raise skips straight to `msg.reject(requeue=False)`. The returned
trace records the effects that completed. -/
def handle_video_uploaded (f : ExtFaults) (ev : VideoUploaded) :
    Outcome × List ExtAction :=
  if f.fetchFails then (.rejectNoRequeue, [])
  else
    let a1 := ExtAction.fetchVideo "videos" ev.minio_path
    if f.ffmpegFails then (.rejectNoRequeue, [a1])
    else
      let audio_filename := ev.video_id ++ "/audio.mp3"
      if f.putFails then (.rejectNoRequeue, [a1, .runFfmpeg])
      else
        if f.publishFails then
          (.rejectNoRequeue, [a1, .runFfmpeg, .putAudio "audio" audio_filename])
        else
          (.ack, [a1, .runFfmpeg, .putAudio "audio" audio_filename,
                  .publishAudioExtracted "audio_extracted" ev.video_id audio_filename])

/-- Whether an action is the durable storage of the extracted audio. -/
def ExtAction.isPutAudio : ExtAction → Bool
  | .putAudio _ _ => true
  | _ => false

/-- Whether an action is the publication of the downstream event. -/
def ExtAction.isPublish : ExtAction → Bool
  | .publishAudioExtracted _ _ _ => true
  | _ => false

/-- Every publication in the trace is strictly preceded by a completed
durable store of the audio: if the trace publishes at all, the first
store index is strictly below the first publish index. -/
def storePrecedesPublish (tr : List ExtAction) : Bool :=
  match tr.findIdx? ExtAction.isPublish with
  | none => true
  | some j =>
      match tr.findIdx? ExtAction.isPutAudio with
      | none => false
      | some i => i < j

/-! ## Concrete fixtures

Concrete values used by the closed instances below; they mirror the
fixtures of src/services/analyzer/tests/test_analyzer.py. -/

/-- The one segment of the test-fixture analysis. -/
def sampleSegment : AnalysisResult :=
  { text := "I feel very sad today.", speaker_role := "patient"
    topic := "sadness", emotion := "sad", confidence := (99 : Rat) / 100 }

/-- The test-fixture analysis payload (one segment, one summary). -/
def sampleAnalysis : FullAnalysis :=
  { video_id := ""
    segments := [sampleSegment]
    summary := "Patient is sad."
    recommendations := ["Do homework"]
    cognitive_distortions :=
      [{ quote := "I am a failure", distortion_type := "Labeling"
         explanation := "Self-labeling" }]
    therapist_interventions :=
      [{ quote := "Tell me more", technique := "Open Question"
         purpose := "Exploration" }] }

/-- A deterministic successful LLM: every transcript parses to the fixture
analysis. -/
def llmConst : String → FullAnalysis := fun _ => sampleAnalysis

/-- Empty tables. -/
def emptyPg : PgState := { analysis_summary := [], analysis_segments := [] }

/-- Empty cache, empty tables, no LLM calls issued yet. -/
def emptyWorld : World := { cache := [], db := emptyPg, llmCalls := 0 }

/-- First transcript event of the end-to-end scenario. -/
def eventE1 : AnalyzerEvent := { video_id := "e1", transcript_text := "I feel sad." }

/-- Second transcript event: a different entity with identical text. -/
def eventE2 : AnalyzerEvent := { video_id := "e2", transcript_text := "I feel sad." }

/-! ## Helper lemmas -/

set_option maxRecDepth 10000

/-- Validation of the SHA-256 embedding against the FIPS 180-4 test
vector for the message `abc`. -/
theorem sha256hex_abc :
    sha256hex "abc" = "ba7816bf8f01cfea414140de5dae2223b00361a396177a9cb410ff61f20015ad" := by
  rfl

/-- A value just stored in the cache is what a lookup of its key returns. -/
theorem lookupCache_set_self (c : List (String × FullAnalysis)) (k : String)
    (v : FullAnalysis) : lookupCache (setCache c k v) k = some v := by
  induction c with
  | nil => simp [setCache, lookupCache]
  | cons p rest ih =>
      by_cases hp : p.1 = k
      · simp [setCache, lookupCache, hp]
      · have hb : (p.1 == k) = false := beq_eq_false_iff_ne.mpr hp
        simp [setCache, lookupCache, hb, ih]

/-- After an upsert, some row carries the upserted key. -/
theorem upsertSummary_exists_row (tbl : List SummaryRow) (row : SummaryRow) :
    ∃ r ∈ upsertSummary tbl row, r.video_id = row.video_id := by
  induction tbl with
  | nil => exact ⟨row, by simp [upsertSummary], rfl⟩
  | cons q rest ih =>
      by_cases hq : q.video_id = row.video_id
      · let upd : SummaryRow :=
          { q with summary_text := row.summary_text,
                   recommendations := row.recommendations,
                   cognitive_distortions := row.cognitive_distortions,
                   therapist_interventions := row.therapist_interventions }
        refine ⟨upd, ?_, ?_⟩
        · simp [upsertSummary, hq, upd]
        · exact hq
      · obtain ⟨r, hr, hv⟩ := ih
        have hb : (q.video_id == row.video_id) = false := beq_eq_false_iff_ne.mpr hq
        exact ⟨r, by simp [upsertSummary, hb, hr], hv⟩

/-- After `save_to_postgres`, some summary row carries the analysis id. -/
theorem save_exists_summary_row (db : PgState) (a : FullAnalysis) :
    ∃ r ∈ (save_to_postgres db a).analysis_summary, r.video_id = a.video_id :=
  upsertSummary_exists_row db.analysis_summary (summaryRowOf a)

/-! ## Claims -/

/-- C1: the claim states that applying `save_to_postgres` twice with the
same record leaves the persisted state identical to applying it once, with
no duplicate child rows in `analysis_segments`. The code falsifies it: the
summary row is upserted, but each segment is written with a plain INSERT,
so the second application appends the segment rows again — two child rows
for the entity where one application leaves one. -/
theorem C1_save_to_postgres_duplicates_segments :
    (save_to_postgres emptyPg { sampleAnalysis with video_id := "e1" }).analysis_segments.length
        = 1 ∧
    (save_to_postgres (save_to_postgres emptyPg { sampleAnalysis with video_id := "e1" })
        { sampleAnalysis with video_id := "e1" }).analysis_segments.length = 2 ∧
    (save_to_postgres (save_to_postgres emptyPg { sampleAnalysis with video_id := "e1" })
        { sampleAnalysis with video_id := "e1" }).analysis_summary.length = 1 ∧
    save_to_postgres (save_to_postgres emptyPg { sampleAnalysis with video_id := "e1" })
        { sampleAnalysis with video_id := "e1" }
      ≠ save_to_postgres emptyPg { sampleAnalysis with video_id := "e1" } := by
  refine ⟨rfl, rfl, rfl, ?_⟩
  intro h
  have h1 : (save_to_postgres (save_to_postgres emptyPg
      { sampleAnalysis with video_id := "e1" })
      { sampleAnalysis with video_id := "e1" }).analysis_segments.length = 2 := rfl
  rw [h] at h1
  have h2 : (save_to_postgres emptyPg
      { sampleAnalysis with video_id := "e1" }).analysis_segments.length = 1 := rfl
  rw [h2] at h1
  exact absurd h1 (by decide)

/-- C2: the claim states that the transcript.ready event carries a
`transcript_text` field readable by the analyzer. The code falsifies it:
the transcription stage passes `transcript_text` as a constructor keyword
and the analyzer reads `event.transcript_text`, but the shared
`TranscriptReady` pydantic model declares no such field, so the keyword is
silently dropped on construction and the attribute read raises. -/
theorem C2_transcript_text_not_a_declared_field :
    "transcript_text" ∈ transcriptReadyCtorKwargs ∧
    "transcript_text" ∈ handleTranscriptEventReads ∧
    "transcript_text" ∉ TranscriptReady.fieldNames := by
  decide

/-- C7: a blank transcript is acknowledged with no side effects: the
handler returns before the cache, the LLM, or the database is touched, for
every fault environment and every world. -/
theorem C7_blank_transcript_ack_no_side_effects (llm : String → FullAnalysis)
    (f : Faults) (w : World) (ev : AnalyzerEvent)
    (hb : isBlankTranscript ev.transcript_text = true) :
    handle_transcript llm f w ev = (.ack, w) := by
  simp [handle_transcript, hb]

/-- Witness for C7 at the blank event of the analyzer test suite. -/
theorem C7_witness :
    isBlankTranscript "" = true ∧
    handle_transcript llmConst noFaults emptyWorld
      { video_id := "e3", transcript_text := "" } = (.ack, emptyWorld) :=
  ⟨by decide,
   C7_blank_transcript_ack_no_side_effects llmConst noFaults emptyWorld
     { video_id := "e3", transcript_text := "" } (by decide)⟩

/-- C8: in every invocation of the extraction stage, under every fault
environment, the trace of completed effects stores the extracted audio
durably strictly before the downstream audio.extracted event is published;
in particular no trace publishes without a completed store. -/
theorem C8_store_precedes_publish (f : ExtFaults) (ev : VideoUploaded) :
    storePrecedesPublish (handle_video_uploaded f ev).2 = true := by
  rcases f with ⟨f1, f2, f3, f4⟩
  cases f1 <;> cases f2 <;> cases f3 <;> cases f4 <;>
    simp [handle_video_uploaded, storePrecedesPublish, ExtAction.isPublish,
      ExtAction.isPutAudio, List.findIdx?_cons]

/-- C3 counterexample: at a concrete valid event with a failing cache
lookup, the invocation does not behave as a cache miss: the exception
propagates out of the handler (outcome `raised`), the LLM is never
invoked, and nothing is written — where the claim requires the compute
path to run and the invocation not to fail. -/
theorem C3_counterexample_lookup_failure_is_not_a_miss :
    handle_transcript llmConst { noFaults with lookupFails := true } emptyWorld eventE1
        = (.raised, emptyWorld) ∧
    (handle_transcript llmConst { noFaults with lookupFails := true } emptyWorld
        eventE1).2.llmCalls = 0 :=
  ⟨rfl, rfl⟩

/-- C3 amended: for every valid (non-blank) transcript event, if the cache
lookup operation itself fails, the exception propagates out of the handler
(the `redis.get` of line 144 is outside every try block): the invocation
fails with the world unchanged, and the compute path is not reached. Only
an absent entry, or a cache hit whose restore fails, leads to recompute. -/
theorem C3_amended_lookup_failure_raises (llm : String → FullAnalysis)
    (f : Faults) (w : World) (ev : AnalyzerEvent)
    (hb : isBlankTranscript ev.transcript_text = false)
    (hf : f.lookupFails = true) :
    handle_transcript llm f w ev = (.raised, w) := by
  simp [handle_transcript, hb, hf]

/-- Witness for the amended C3 at a concrete valid event. -/
theorem C3_amended_witness :
    isBlankTranscript eventE1.transcript_text = false ∧
    handle_transcript llmConst { noFaults with lookupFails := true } emptyWorld eventE1
      = (.raised, emptyWorld) :=
  ⟨by decide,
   C3_amended_lookup_failure_raises llmConst { noFaults with lookupFails := true }
     emptyWorld eventE1 (by decide) rfl⟩

/-- C4 counterexample: at a concrete invocation in which compute and
persist succeed and only the final `redis.set` fails, the handler does not
acknowledge: the failure is caught by the handler-wide except and the
event is terminally rejected, even though the analysis was already
persisted. -/
theorem C4_counterexample_store_failure_rejects :
    (handle_transcript llmConst { noFaults with storeFails := true } emptyWorld
        eventE1).1 = .rejectNoRequeue ∧
    (handle_transcript llmConst { noFaults with storeFails := true } emptyWorld
        eventE1).2.db
      = save_to_postgres emptyPg { sampleAnalysis with video_id := "e1" } :=
  ⟨rfl, rfl⟩

/-- C4 amended: when compute and persist succeed and the subsequent cache
store fails, the invocation is not acknowledged: the single except of
lines 212 to 214 catches the store failure and terminally rejects
(requeue=False), leaving the result persisted and the cache unchanged. -/
theorem C4_amended_store_failure_rejects_after_persist
    (llm : String → FullAnalysis) (f : Faults) (w : World) (ev : AnalyzerEvent)
    (hb : isBlankTranscript ev.transcript_text = false)
    (h1 : f.lookupFails = false)
    (h2 : lookupCache w.cache (cacheKeyOf ev.transcript_text) = none)
    (h3 : f.llmFails = false) (h4 : f.llmParseFails = false)
    (h5 : f.saveFails = false) (h6 : f.storeFails = true) :
    handle_transcript llm f w ev =
      (.rejectNoRequeue,
        { w with llmCalls := w.llmCalls + 1,
                 db := save_to_postgres w.db
                   { llm ev.transcript_text with video_id := ev.video_id } }) := by
  simp [handle_transcript, computePath, hb, h1, h2, h3, h4, h5, h6]

/-- Witness for the amended C4 at a concrete invocation. -/
theorem C4_amended_witness :
    isBlankTranscript eventE1.transcript_text = false ∧
    lookupCache emptyWorld.cache (cacheKeyOf eventE1.transcript_text) = none ∧
    handle_transcript llmConst { noFaults with storeFails := true } emptyWorld eventE1
      = (.rejectNoRequeue,
          { emptyWorld with
              llmCalls := 1,
              db := save_to_postgres emptyWorld.db
                { llmConst eventE1.transcript_text with video_id := eventE1.video_id } }) :=
  ⟨by decide, rfl,
   C4_amended_store_failure_rejects_after_persist llmConst
     { noFaults with storeFails := true } emptyWorld eventE1
     (by decide) rfl rfl rfl rfl rfl rfl⟩

/-- C5: when the external operation fails the stage persists nothing,
emits nothing downstream, and terminally rejects. For the analyzer: on any
invocation that reaches the compute path, if the LLM call raises or its
response fails to parse, the handler rejects without requeue and the only
world change is the issued call attempt — database and cache are
untouched. For the transcription stage: if the vendor call raises, the
handler rejects without requeue and publishes nothing. -/
theorem C5_external_failure_rejects_without_side_effects :
    (∀ (llm : String → FullAnalysis) (f : Faults) (w : World) (ev : AnalyzerEvent),
        isBlankTranscript ev.transcript_text = false →
        f.lookupFails = false →
        (lookupCache w.cache (cacheKeyOf ev.transcript_text) = none ∨
          f.hitParseFails = true ∨ f.hitSaveFails = true) →
        (f.llmFails = true ∨ f.llmParseFails = true) →
        handle_transcript llm f w ev =
          (.rejectNoRequeue, { w with llmCalls := w.llmCalls + 1 })) ∧
    (∀ (vendor : String → TransResult) (f : TransFaults) (w : TransWorld)
        (ev : AudioExtracted),
        f.fetchFails = false → f.vendorFails = true →
        handle_audio_extracted vendor f w ev = (.rejectNoRequeue, w)) := by
  constructor
  · intro llm f w ev hb h1 hreach hvend
    have hcompute : computePath llm f w ev (cacheKeyOf ev.transcript_text) =
        (.rejectNoRequeue, { w with llmCalls := w.llmCalls + 1 }) := by
      rcases hvend with hv | hv
      · simp [computePath, hv]
      · cases hLf : f.llmFails
        · simp [computePath, hLf, hv]
        · simp [computePath, hLf]
    rcases hreach with hr | hr | hr
    · simp [handle_transcript, hb, h1, hr, hcompute]
    · cases hL : lookupCache w.cache (cacheKeyOf ev.transcript_text) with
      | none => simp [handle_transcript, hb, h1, hL, hcompute]
      | some cached => simp [handle_transcript, hb, h1, hL, hr, hcompute]
    · cases hL : lookupCache w.cache (cacheKeyOf ev.transcript_text) with
      | none => simp [handle_transcript, hb, h1, hL, hcompute]
      | some cached =>
          cases hp : f.hitParseFails
          · simp [handle_transcript, hb, h1, hL, hp, hr, hcompute]
          · simp [handle_transcript, hb, h1, hL, hp, hcompute]
  · intro vendor f w ev h1 h2
    simp [handle_audio_extracted, h1, h2]

/-- Witness for C5: a concrete LLM failure on a cache miss, and a concrete
vendor failure in the transcription stage. -/
theorem C5_witness :
    (isBlankTranscript eventE1.transcript_text = false ∧
     lookupCache emptyWorld.cache (cacheKeyOf eventE1.transcript_text) = none ∧
     handle_transcript llmConst { noFaults with llmFails := true } emptyWorld eventE1
       = (.rejectNoRequeue, { emptyWorld with llmCalls := 1 })) ∧
    handle_audio_extracted (fun _ => { text := "I feel sad.", json_response := "raw" })
        { fetchFails := false, vendorFails := true } { published := [] }
        { video_id := "e1", audio_path := "e1/audio.mp3", duration_seconds := none,
          timestamp := 0 }
      = (.rejectNoRequeue, { published := [] }) :=
  ⟨⟨by decide, rfl,
    C5_external_failure_rejects_without_side_effects.1 llmConst
      { noFaults with llmFails := true } emptyWorld eventE1
      (by decide) rfl (Or.inl rfl) (Or.inl rfl)⟩,
   C5_external_failure_rejects_without_side_effects.2
     (fun _ => { text := "I feel sad.", json_response := "raw" })
     { fetchFails := false, vendorFails := true } { published := [] }
     { video_id := "e1", audio_path := "e1/audio.mp3", duration_seconds := none,
       timestamp := 0 } rfl rfl⟩

/-- C9: on a successful cache-hit restore, the persisted record carries the
video id of the current event, not the id stored inside the cached value:
the handler is exactly an ack plus a persist of the cached analysis with
its `video_id` overwritten, and every row written (summary and segments)
carries the current id. -/
theorem C9_cache_hit_persists_current_video_id (llm : String → FullAnalysis)
    (f : Faults) (w : World) (ev : AnalyzerEvent) (cached : FullAnalysis)
    (hb : isBlankTranscript ev.transcript_text = false)
    (h1 : f.lookupFails = false) (h2 : f.hitParseFails = false)
    (h3 : f.hitSaveFails = false)
    (hc : lookupCache w.cache (cacheKeyOf ev.transcript_text) = some cached) :
    handle_transcript llm f w ev =
      (.ack, { w with db := save_to_postgres w.db { cached with video_id := ev.video_id } }) ∧
    (summaryRowOf { cached with video_id := ev.video_id }).video_id = ev.video_id ∧
    ∀ r ∈ segmentRowsOf { cached with video_id := ev.video_id },
      r.video_id = ev.video_id := by
  refine ⟨?_, rfl, ?_⟩
  · simp [handle_transcript, hb, h1, hc, h2, h3]
  · intro r hr
    simp only [segmentRowsOf, List.mem_map] at hr
    obtain ⟨seg, hseg, rfl⟩ := hr
    rfl

/-- Witness for C9: a cached analysis computed for entity e1 is restored on
an event for entity e2 and acknowledged. -/
theorem C9_witness :
    isBlankTranscript eventE2.transcript_text = false ∧
    (handle_transcript llmConst noFaults
        { cache := [(cacheKeyOf eventE2.transcript_text,
                     { sampleAnalysis with video_id := "e1" })],
          db := emptyPg, llmCalls := 0 } eventE2).1 = .ack :=
  ⟨by decide, by
    have h := C9_cache_hit_persists_current_video_id llmConst noFaults
      { cache := [(cacheKeyOf eventE2.transcript_text,
                   { sampleAnalysis with video_id := "e1" })],
        db := emptyPg, llmCalls := 0 } eventE2
      { sampleAnalysis with video_id := "e1" }
      (by decide) rfl rfl rfl (by simp [lookupCache])
    rw [h.1]⟩

/-- C10: a corrupt or unusable cache entry never dead-letters the item at
the hit path: if on a cache hit the cached data fails to validate, or
persisting the restored result fails, the invocation is exactly the
compute path on the unchanged world — in particular the LLM is invoked
(the call counter increments) just as on a cache miss. -/
theorem C10_failed_cache_restore_falls_through (llm : String → FullAnalysis)
    (f : Faults) (w : World) (ev : AnalyzerEvent) (cached : FullAnalysis)
    (hb : isBlankTranscript ev.transcript_text = false)
    (h1 : f.lookupFails = false)
    (hc : lookupCache w.cache (cacheKeyOf ev.transcript_text) = some cached)
    (hf : f.hitParseFails = true ∨ f.hitSaveFails = true) :
    handle_transcript llm f w ev = computePath llm f w ev (cacheKeyOf ev.transcript_text) ∧
    (handle_transcript llm f w ev).2.llmCalls = w.llmCalls + 1 := by
  have hmain : handle_transcript llm f w ev
      = computePath llm f w ev (cacheKeyOf ev.transcript_text) := by
    rcases hf with hp | hs
    · simp [handle_transcript, hb, h1, hc, hp]
    · cases hp : f.hitParseFails
      · simp [handle_transcript, hb, h1, hc, hp, hs]
      · simp [handle_transcript, hb, h1, hc, hp]
  refine ⟨hmain, ?_⟩
  rw [hmain]
  cases hA : f.llmFails <;> cases hB : f.llmParseFails <;>
    cases hC : f.saveFails <;> cases hD : f.storeFails <;>
      simp [computePath, hA, hB, hC, hD, save_to_postgres]

/-- Witness for C10: a cache hit whose cached payload fails validation on a
concrete event; the LLM is invoked once. -/
theorem C10_witness :
    isBlankTranscript eventE2.transcript_text = false ∧
    (handle_transcript llmConst { noFaults with hitParseFails := true }
        { cache := [(cacheKeyOf eventE2.transcript_text, sampleAnalysis)],
          db := emptyPg, llmCalls := 0 } eventE2).2.llmCalls = 1 :=
  ⟨by decide,
   (C10_failed_cache_restore_falls_through llmConst
      { noFaults with hitParseFails := true }
      { cache := [(cacheKeyOf eventE2.transcript_text, sampleAnalysis)],
        db := emptyPg, llmCalls := 0 } eventE2 sampleAnalysis
      (by decide) rfl (by simp [lookupCache]) (Or.inl rfl)).2⟩

/-- C6: cache-hit short-circuit. Two transcript events with identical text
processed sequentially and without faults, starting from a cache with no
entry for their fingerprint: the first invocation acknowledges, the second
acknowledges, the LLM is invoked exactly once across the two invocations,
and the second invocation still persists a summary row keyed by its own
entity id. -/
theorem C6_cache_hit_short_circuit (llm : String → FullAnalysis) (w0 : World)
    (e1 e2 : AnalyzerEvent)
    (ht : e1.transcript_text = e2.transcript_text)
    (hb : isBlankTranscript e1.transcript_text = false)
    (hm : lookupCache w0.cache (cacheKeyOf e1.transcript_text) = none) :
    (handle_transcript llm noFaults w0 e1).1 = .ack ∧
    (handle_transcript llm noFaults (handle_transcript llm noFaults w0 e1).2 e2).1
      = .ack ∧
    (handle_transcript llm noFaults (handle_transcript llm noFaults w0 e1).2 e2).2.llmCalls
      = w0.llmCalls + 1 ∧
    (∃ r ∈ (handle_transcript llm noFaults
        (handle_transcript llm noFaults w0 e1).2 e2).2.db.analysis_summary,
      r.video_id = e2.video_id) := by
  have h1 : handle_transcript llm noFaults w0 e1 =
      (.ack,
        { cache := setCache w0.cache (cacheKeyOf e1.transcript_text)
            { llm e1.transcript_text with video_id := e1.video_id },
          db := save_to_postgres w0.db
            { llm e1.transcript_text with video_id := e1.video_id },
          llmCalls := w0.llmCalls + 1 }) := by
    simp [handle_transcript, computePath, hb, hm, noFaults]
  have hb2 : isBlankTranscript e2.transcript_text = false := ht ▸ hb
  have hkey : cacheKeyOf e2.transcript_text = cacheKeyOf e1.transcript_text := by
    rw [ht]
  have hc2 : lookupCache
      (setCache w0.cache (cacheKeyOf e1.transcript_text)
        { llm e1.transcript_text with video_id := e1.video_id })
      (cacheKeyOf e2.transcript_text)
      = some { llm e1.transcript_text with video_id := e1.video_id } := by
    rw [hkey]
    exact lookupCache_set_self w0.cache (cacheKeyOf e1.transcript_text)
      { llm e1.transcript_text with video_id := e1.video_id }
  rw [h1]
  have h2 : handle_transcript llm noFaults
      { cache := setCache w0.cache (cacheKeyOf e1.transcript_text)
          { llm e1.transcript_text with video_id := e1.video_id },
        db := save_to_postgres w0.db
          { llm e1.transcript_text with video_id := e1.video_id },
        llmCalls := w0.llmCalls + 1 } e2 =
      (.ack,
        { cache := setCache w0.cache (cacheKeyOf e1.transcript_text)
            { llm e1.transcript_text with video_id := e1.video_id },
          db := save_to_postgres
            (save_to_postgres w0.db
              { llm e1.transcript_text with video_id := e1.video_id })
            { llm e1.transcript_text with video_id := e2.video_id },
          llmCalls := w0.llmCalls + 1 }) := by
    simp [handle_transcript, hb2, hc2, noFaults]
  simp only [Prod.snd]
  rw [h2]
  refine ⟨trivial, rfl, rfl, ?_⟩
  exact save_exists_summary_row
    (save_to_postgres w0.db { llm e1.transcript_text with video_id := e1.video_id })
    { llm e1.transcript_text with video_id := e2.video_id }

/-- Witness for C6: the end-to-end scenario of the spec, entities e1 and
e2 with the identical transcript, starting from the empty world. -/
theorem C6_witness :
    eventE1.transcript_text = eventE2.transcript_text ∧
    isBlankTranscript eventE1.transcript_text = false ∧
    lookupCache emptyWorld.cache (cacheKeyOf eventE1.transcript_text) = none ∧
    ((handle_transcript llmConst noFaults emptyWorld eventE1).1 = .ack ∧
     (handle_transcript llmConst noFaults
        (handle_transcript llmConst noFaults emptyWorld eventE1).2 eventE2).1 = .ack ∧
     (handle_transcript llmConst noFaults
        (handle_transcript llmConst noFaults emptyWorld eventE1).2
        eventE2).2.llmCalls = emptyWorld.llmCalls + 1 ∧
     (∃ r ∈ (handle_transcript llmConst noFaults
        (handle_transcript llmConst noFaults emptyWorld eventE1).2
        eventE2).2.db.analysis_summary, r.video_id = eventE2.video_id)) :=
  ⟨rfl, by decide, rfl,
   C6_cache_hit_short_circuit llmConst emptyWorld eventE1 eventE2 rfl (by decide) rfl⟩
